import Mathlib

/-!
Verification development for the comm-claim-bot repository.

The definitions below are a shallow embedding of the bot's core logic:
the commission calculator and percentage validator, the fast-commission
lookup, the GitHub backup writer's retry loop, and the idempotent
completion tracker (the Jotform webhook handler, the manual
check-upload-status handler, and the shared file-transfer routine).

JavaScript numbers are modelled as `Option ℚ`: `none` plays the role of
NaN, which propagates through arithmetic.  All external I/O (Jotform
fetches, Google Drive uploads, GitHub writes, Discord replies) is
modelled by oracle parameters giving the values the calls would return;
the process-local Maps and Sets are association lists and lists inside
an explicit state record, mutated by pure state-passing exactly where
the source mutates them.
-/

namespace CommClaimBot

/-- A JavaScript number: `some q` is a finite value, `none` is NaN.
(The source never produces Infinity on the paths modelled here: the
only divisions are by the literal 100.) -/
abbrev JSNum : Type := Option ℚ

/-- NaN-propagating multiplication of two JavaScript numbers. -/
def jsMul (a b : JSNum) : JSNum :=
  match a, b with
  | some x, some y => some (x * y)
  | _, _ => none

/-- NaN-propagating multiplication by an already-numeric value. -/
def jsMulQ (a : JSNum) (q : ℚ) : JSNum :=
  match a with
  | some x => some (x * q)
  | none => none

/-- NaN-propagating division by the literal 100, the only divisor the
calculator uses. -/
def jsDiv100 (a : JSNum) : JSNum :=
  match a with
  | some x => some (x / 100)
  | none => none

/-- Digits of a numeric literal consumed left to right. -/
def takeDigits : List Char → List ℕ × List Char
  | [] => ([], [])
  | c :: cs =>
    if c.isDigit then
      let r := takeDigits cs
      ((c.toNat - 48) :: r.1, r.2)
    else ([], c :: cs)

/-- Value of a digit string read in base 10. -/
def digitsToNat (ds : List ℕ) : ℕ := ds.foldl (fun a d => 10 * a + d) 0

/-- Embedding of JavaScript parseFloat on the decimal literals this code
feeds it: optional leading whitespace and sign, an integer part, an
optional fraction, any trailing junk ignored; `none` (NaN) when no digit
is consumed.  Exponent notation and the literal Infinity are not
modelled; no call site in the repository produces them. -/
def parseFloatQ (s : String) : JSNum :=
  let cs := s.toList.dropWhile Char.isWhitespace
  let signed : ℚ × List Char :=
    match cs with
    | '-' :: r => (-1, r)
    | '+' :: r => (1, r)
    | r => (1, r)
  let ip := takeDigits signed.2
  match ip.2 with
  | '.' :: r =>
    let fp := takeDigits r
    if ip.1 = [] ∧ fp.1 = [] then none
    else some (signed.1 * ((digitsToNat ip.1 : ℚ) +
      (digitsToNat fp.1 : ℚ) / (10 ^ fp.1.length)))
  | _ =>
    if ip.1 = [] then none
    else some (signed.1 * (digitsToNat ip.1 : ℚ))

/-- Embedding of `String(nettPrice).replace(/,/g, '')`. -/
def stripCommas (s : String) : String :=
  String.mk (s.toList.filter (fun c => c != ','))

/-- Embedding of Number.prototype.toFixed(2) on the values this code
formats: NaN renders as the string NaN; finite values round half away
from zero to two decimals.  (The binary-double tie behaviour of the real
toFixed never differs on the amounts the claims mention.) -/
def toFixed2 (x : JSNum) : String :=
  match x with
  | none => "NaN"
  | some q =>
    let n : ℕ := (Int.floor (|q| * 100 + 1/2)).toNat
    let ip := n / 100
    let fr := n % 100
    let core := Nat.repr ip ++ "." ++
      (if fr < 10 then "0" ++ Nat.repr fr else Nat.repr fr)
    if q < 0 ∧ n ≠ 0 then "-" ++ core else core

/-- One slot of the consultant/agent list.  In the pipeline feeding the
calculator and validator, `percentage` is already a number (the modal
handler stores `parseFloat(percentage) || 0`), and `commission` is the
string the calculator writes (empty before the first calculation). -/
structure Agent where
  name : String
  code : String
  percentage : ℚ
  commission : String
deriving DecidableEq

/-- Embedding of validateAgentPercentages: sums parseFloat(agent.percentage
|| 0) over every entry of the list it is given (no name filtering happens
inside the function) and tests |total - 100| < 0.01.  On the numeric
`percentage` field of the pipeline, parseFloat(x || 0) is the identity. -/
def validateAgentPercentages (agents : List Agent) : Bool :=
  let total := agents.foldl (fun sum agent => sum + agent.percentage) 0
  decide (|total - 100| < 1/100)

/-- Embedding of calculateCommissions: strips commas from the nett price,
parses price and rate, computes totalCommission = nett * rate / 100, and
maps each agent to a copy whose commission field is
((totalCommission * percentage) / 100).toFixed(2). -/
def calculateCommissions (nettPrice commissionRate : String)
    (agents : List Agent) : List Agent :=
  let cleanNettPrice := stripCommas nettPrice
  let nett := parseFloatQ cleanNettPrice
  let rate := parseFloatQ commissionRate
  let totalCommission := jsDiv100 (jsMul nett rate)
  agents.map (fun agent =>
    let agentCommission := jsDiv100 (jsMulQ totalCommission agent.percentage)
    { agent with commission := toFixed2 agentCommission })

/-- Character-wise lower-casing, the effect of JavaScript's
String.prototype.toLowerCase on the ASCII project names this code
handles. -/
def toLowerCase (s : String) : String :=
  String.mk (s.toList.map Char.toLower)

/-- Embedding of getFastCommissionPercentage over the in-memory
fastCommissionPercentages map (an association list whose keys the
setters store lower-cased): `map.get(projectName.toLowerCase()) || 50`.
The JavaScript `||` falls through to 50 on the falsy number 0 as well as
on a missing entry. -/
def getFastCommissionPercentage (fastCommissionPercentages : List (String × ℚ))
    (projectName : String) : ℚ :=
  match List.lookup (toLowerCase projectName) fastCommissionPercentages with
  | some v => if v = 0 then 50 else v
  | none => 50

/-- One user's in-flight Submission Draft, restricted to the fields the
completion tracker reads or writes.  `jotformSubmissionId` is the empty
string while the field is still unset, and `jotform` records whether the
draft carries form info (`data.jotform` truthiness). -/
structure UserData where
  userId : String
  username : String
  sessionToken : String
  status : String
  uploadedFiles : List String
  jotformSubmissionId : String
  jotform : Bool
deriving DecidableEq

/-- The persisted Submission Record appended to the GitHub backup list
({...userData, user_id, username, submitted_at, uploadedFiles}); the
wall-clock timestamp is omitted from the model. -/
structure SubmissionRecord where
  user_id : String
  username : String
  uploadedFiles : List String
  jotformSubmissionId : String
deriving DecidableEq

/-- The process-local mutable state the completion tracker works over:
the Session Store, the token map, the dedup sets, the notification keys,
plus the observable outputs (the GitHub backup list and the submission
ids announced on the Discord notification channel). -/
structure BotState where
  submissions : List (String × UserData)
  tokenToUserId : List (String × String)
  processedSubmissions : List String
  processingSubmissions : List String
  processedTokens : List String
  notificationsSent : List String
  processingConfirmations : List String
  backup : List SubmissionRecord
  channelMessages : List String
deriving DecidableEq

/-- JavaScript Set.add: append when absent. -/
def setAdd (s : List String) (x : String) : List String :=
  if x ∈ s then s else s ++ [x]

/-- JavaScript Set.delete / Map.delete by key equality. -/
def setDelete (s : List String) (x : String) : List String :=
  s.filter (fun y => y != x)

/-- JavaScript Map.set: overwrite in place or append. -/
def mapSet (m : List (String × UserData)) (k : String) (v : UserData) :
    List (String × UserData) :=
  if (List.lookup k m).isSome then
    m.map (fun kv => if kv.1 = k then (k, v) else kv)
  else m ++ [(k, v)]

/-- JavaScript Map.delete on the token map. -/
def mapDelete (m : List (String × String)) (k : String) :
    List (String × String) :=
  m.filter (fun kv => kv.1 != k)

/-- JavaScript Map.delete on the session store. -/
def mapDeleteU (m : List (String × UserData)) (k : String) :
    List (String × UserData) :=
  m.filter (fun kv => kv.1 != k)

/-- Submission Record built from the updated draft by the spread
{...userData, user_id, username, uploadedFiles}. -/
def mkSubmissionRecord (ud : UserData) (uid : String) (files : List String) :
    SubmissionRecord :=
  { user_id := uid, username := ud.username, uploadedFiles := files,
    jotformSubmissionId := ud.jotformSubmissionId }

/-- Embedding of sendSubmissionNotification: dedup on the
`${submissionId}_${userData.userId}` key, then post to the notification
channel (the channel is assumed configured; a missing channel only
suppresses the message after the key is already recorded, a path no
claim depends on). -/
def sendSubmissionNotification (userData : UserData) (submissionId : String)
    (st : BotState) : BotState :=
  let notificationKey := submissionId ++ "_" ++ userData.userId
  if notificationKey ∈ st.notificationsSent then st
  else
    { st with
      notificationsSent := setAdd st.notificationsSent notificationKey,
      channelMessages := st.channelMessages ++ [submissionId] }

/-- Embedding of transferJotformFilesToGoogleDrive.  The Jotform
download / Google Drive upload pipeline is external I/O; `fetchedFiles`
is the file list that pipeline would produce for this submission (an
empty list also covers the caught download/upload errors, which the
source converts to a returned empty array).  The function's try/finally
deletes submissionId from processingSubmissions on every exit path,
including the early returns. -/
def transferJotformFilesToGoogleDrive (fetchedFiles : List String)
    (submissionId : String) (userData : UserData) (st : BotState) :
    List String × BotState :=
  let fin := fun (s : BotState) =>
    { s with processingSubmissions := setDelete s.processingSubmissions submissionId }
  if submissionId ∈ st.processedSubmissions then
    (userData.uploadedFiles, fin st)
  else if userData.uploadedFiles ≠ [] then
    (userData.uploadedFiles,
      fin { st with processedSubmissions := setAdd st.processedSubmissions submissionId })
  else if submissionId ∈ st.processingSubmissions then
    ([], fin st)
  else
    let st1 := { st with
      processingSubmissions := setAdd st.processingSubmissions submissionId }
    let st2 :=
      if fetchedFiles ≠ [] then
        { st1 with processedSubmissions := setAdd st1.processedSubmissions submissionId }
      else st1
    (fetchedFiles, fin st2)

/-- An inbound POST /webhook/jotform payload: the Jotform submission id
and the session token extracted from rawRequest (empty string when the
payload carried none). -/
structure WebhookEvent where
  submissionId : String
  sessionToken : String
deriving DecidableEq

/-- Embedding of the app.post('/webhook/jotform') handler.  Returns the
JSON message of the 200 response together with the post-state.  Every
state mutation follows the source line by line; in particular the
unmatched-event cleanup deletes processingSubmissions twice and the
token entry, but never processedSubmissions. -/
def webhookHandler (fetchedFiles : List String) (ev : WebhookEvent)
    (st : BotState) : String × BotState :=
  let submissionId := ev.submissionId
  let sessionToken := ev.sessionToken
  if submissionId ∈ st.processedSubmissions then ("Already processed", st)
  else if submissionId ∈ st.processingSubmissions then ("Currently processing", st)
  else if sessionToken ≠ "" ∧ sessionToken ∈ st.processedTokens then
    ("Token already processed", st)
  else
    let st1 := { st with
      processedSubmissions := setAdd st.processedSubmissions submissionId,
      processingSubmissions := setAdd st.processingSubmissions submissionId,
      processedTokens :=
        if sessionToken ≠ "" then setAdd st.processedTokens sessionToken
        else st.processedTokens }
    let matched : Option (String × UserData) :=
      if sessionToken ≠ "" then
        match List.lookup sessionToken st1.tokenToUserId with
        | some uid =>
          match List.lookup uid st1.submissions with
          | some ud =>
            if ud.sessionToken = sessionToken ∧ ud.status = "awaiting_form_completion"
            then some (uid, ud) else none
          | none => none
        | none => none
      else none
    match matched with
    | some (uid, ud) =>
      if ud.uploadedFiles ≠ [] then
        ("User already has files",
          { st1 with processingSubmissions := setDelete st1.processingSubmissions submissionId })
      else
        let res := transferJotformFilesToGoogleDrive fetchedFiles submissionId ud st1
        let uploadedFiles := res.1
        let st2 := res.2
        if uploadedFiles ≠ [] then
          let ud1 := { ud with
            uploadedFiles := uploadedFiles, jotformSubmissionId := submissionId }
          let st3 := { st2 with
            backup := st2.backup ++ [mkSubmissionRecord ud1 uid uploadedFiles] }
          let st4 := sendSubmissionNotification ud1 submissionId st3
          let ud2 := { ud1 with status := "completed" }
          let st5 := { st4 with submissions := mapSet st4.submissions uid ud2 }
          let st6 := { st5 with
            tokenToUserId := mapDelete st5.tokenToUserId ud2.sessionToken }
          ("Webhook processed",
            { st6 with processingSubmissions := setDelete st6.processingSubmissions submissionId })
        else
          let st3 := { st2 with
            processedSubmissions := setDelete st2.processedSubmissions submissionId,
            processedTokens :=
              if sessionToken ≠ "" then setDelete st2.processedTokens sessionToken
              else st2.processedTokens }
          ("Webhook processed",
            { st3 with processingSubmissions := setDelete st3.processingSubmissions submissionId })
    | none =>
      let st2 := { st1 with
        processingSubmissions :=
          setDelete (setDelete st1.processingSubmissions submissionId) submissionId,
        processedTokens :=
          if sessionToken ≠ "" then setDelete st1.processedTokens sessionToken
          else st1.processedTokens }
      ("Webhook processed", st2)

/-- Embedding of the check_upload_status button handler (the manual
poll path).  `pollResult` is what checkForTokenBasedJotformSubmissions
would return: the id of a form submission carrying the draft's session
token, if any (that helper only reads external form data and mutates no
local state).  `fetchedFiles` is the transfer pipeline's oracle as in
`transferJotformFilesToGoogleDrive`.  The handler's try/finally removes
the status_check key from processingConfirmations on every exit after
it was set. -/
def checkUploadStatus (pollResult : Option String) (fetchedFiles : List String)
    (userId : String) (st : BotState) : String × BotState :=
  match List.lookup userId st.submissions with
  | none => ("No form data found", st)
  | some data =>
    if data.jotform = false then ("No form data found", st)
    else
      let statusCheckKey := "status_check_" ++ userId
      if statusCheckKey ∈ st.processingConfirmations then
        ("Status check already in progress", st)
      else
        let st0 := { st with
          processingConfirmations := setAdd st.processingConfirmations statusCheckKey }
        let fin := fun (s : BotState) =>
          { s with processingConfirmations := setDelete s.processingConfirmations statusCheckKey }
        if data.status = "completed" ∧ data.jotformSubmissionId ≠ "" ∧
            data.uploadedFiles ≠ [] then
          ("Already completed",
            fin { st0 with submissions := mapDeleteU st0.submissions userId })
        else if data.uploadedFiles ≠ [] then
          ("Complete",
            fin { st0 with
              submissions := mapSet st0.submissions userId { data with status := "completed" } })
        else if data.jotformSubmissionId ≠ "" ∧
            data.jotformSubmissionId ∈ st0.processedSubmissions then
          ("Already processed globally",
            fin { st0 with
              submissions := mapSet st0.submissions userId { data with status := "completed" } })
        else
          match pollResult with
          | none => ("No form submission detected yet", fin st0)
          | some subId =>
            if data.jotformSubmissionId = subId ∧ data.uploadedFiles ≠ [] then
              ("Already processed by this user", fin st0)
            else if subId ∈ st0.processedSubmissions then
              ("Already processed globally", fin st0)
            else
              let res := transferJotformFilesToGoogleDrive fetchedFiles subId data st0
              let uploadedFiles := res.1
              let st1 := res.2
              if uploadedFiles ≠ [] then
                let data1 := { data with
                  uploadedFiles := uploadedFiles, jotformSubmissionId := subId }
                let st2 := { st1 with
                  backup := st1.backup ++ [mkSubmissionRecord data1 userId uploadedFiles] }
                let st3 := sendSubmissionNotification data1 subId st2
                let st4 := { st3 with
                  submissions := mapSet st3.submissions userId { data1 with status := "completed" } }
                ("Complete",
                  fin { st4 with submissions := mapDeleteU st4.submissions userId })
              else
                ("File Upload Failed", fin st1)

/-- Outcome of one putFile (createOrUpdateFileContents) attempt against
the GitHub backup object. -/
inductive PutResult where
  | ok : PutResult
  | conflict : PutResult
  | otherError : PutResult
deriving DecidableEq

/-- What the caller of saveBackupToGitHub can observe: the write
succeeded; or an error was caught by the outer handler, logged to the
console and swallowed (the function returns normally); or an exception
escaped to the caller. -/
inductive SaveOutcome where
  | success : SaveOutcome
  | swallowedLog : SaveOutcome
  | raisedToCaller : SaveOutcome
deriving DecidableEq

/-- Embedding of saveBackupToGitHub's retry loop over an oracle giving
each successive putFile attempt's outcome.  Returns (outcome, attempts,
sleeps); each attempt re-fetches the object's sha immediately before the
write, so `attempts` also counts the version-token re-fetches, and each
sleep is the fixed 1000 ms backoff.  A conflict with retries left sleeps
and retries; any other error — or a conflict on the last attempt — is
re-thrown to the outer catch, which logs and swallows it.  The
retries = 0 case is the while-loop's normal exit, unreachable from the
initial budget of 3. -/
def saveLoop : ℕ → ℕ → (ℕ → PutResult) → SaveOutcome × ℕ × ℕ
  | 0, _, _ => (.swallowedLog, 0, 0)
  | r + 1, i, oracle =>
    match oracle i with
    | .ok => (.success, 1, 0)
    | .conflict =>
      if r + 1 > 1 then
        let rest := saveLoop r (i + 1) oracle
        (rest.1, rest.2.1 + 1, rest.2.2 + 1)
      else (.swallowedLog, 1, 0)
    | .otherError => (.swallowedLog, 1, 0)

/-- Embedding of saveBackupToGitHub: three-attempt budget; the records
content is serialized up front and does not influence control flow, and
the function never touches the in-memory draft store. -/
def saveBackupToGitHub (oracle : ℕ → PutResult) : SaveOutcome × ℕ × ℕ :=
  saveLoop 3 0 oracle

/-- A confirmed draft for user u1 awaiting its external form with
session token tok1 and no files yet. -/
def draftU1 : UserData :=
  { userId := "u1", username := "U", sessionToken := "tok1",
    status := "awaiting_form_completion", uploadedFiles := [],
    jotformSubmissionId := "", jotform := true }

/-- Tracker state holding exactly the draft `draftU1` with its token
registered and all dedup state empty. -/
def trackerStateA : BotState :=
  { submissions := [("u1", draftU1)], tokenToUserId := [("tok1", "u1")],
    processedSubmissions := [], processingSubmissions := [],
    processedTokens := [], notificationsSent := [],
    processingConfirmations := [], backup := [], channelMessages := [] }

/-- A webhook event for Jotform submission s1 carrying token tok1. -/
def eventS1 : WebhookEvent := { submissionId := "s1", sessionToken := "tok1" }

/-- A tracker state with no drafts, tokens or dedup entries. -/
def emptyTracker : BotState :=
  { submissions := [], tokenToUserId := [], processedSubmissions := [],
    processingSubmissions := [], processedTokens := [],
    notificationsSent := [], processingConfirmations := [], backup := [],
    channelMessages := [] }

/-- A webhook event whose token tokX is in no token map. -/
def eventUnknownToken : WebhookEvent :=
  { submissionId := "s9", sessionToken := "tokX" }

/-- Scenario A's first participant. -/
def agentA : Agent := { name := "A", code := "", percentage := 60, commission := "" }

/-- Scenario A's second participant. -/
def agentB : Agent := { name := "B", code := "", percentage := 40, commission := "" }

end CommClaimBot

namespace CommClaimBot

section Helpers

theorem setDelete_of_not_mem {s : List String} {x : String} (h : x ∉ s) :
    setDelete s x = s := by
  rw [setDelete, List.filter_eq_self]
  intro a ha
  simp only [bne_iff_ne, ne_eq]
  exact fun e => h (e ▸ ha)

theorem setDelete_setAdd_self {s : List String} {x : String} (h : x ∉ s) :
    setDelete (setAdd s x) x = s := by
  simp only [setAdd, h, if_neg, ite_false]
  simp only [setDelete, List.filter_append]
  rw [show (List.filter (fun y => y != x) [x]) = [] by simp]
  rw [List.append_nil]
  exact setDelete_of_not_mem h

theorem not_mem_setDelete_self (s : List String) (x : String) :
    x ∉ setDelete s x := by
  simp [setDelete, List.mem_filter]

theorem lookup_mapDeleteU_self (m : List (String × UserData)) (k : String) :
    List.lookup k (mapDeleteU m k) = none := by
  induction m with
  | nil => rfl
  | cons a t ih =>
    by_cases h : a.1 = k
    · simpa [mapDeleteU, h] using ih
    · have hcons : mapDeleteU (a :: t) k = a :: mapDeleteU t k := by
        have hb : (a.1 != k) = true := by simp [h]
        simp [mapDeleteU, List.filter, hb]
      rw [hcons, List.lookup_cons]
      have hba : (k == a.1) = false := by simp [Ne.symm h]
      simp [hba, ih]

theorem mem_setAdd_self (s : List String) (x : String) : x ∈ setAdd s x := by
  by_cases h : x ∈ s <;> simp [setAdd, h]

theorem transfer_already_processed (f : List String) (subId : String)
    (ud : UserData) (st : BotState) (h : subId ∈ st.processedSubmissions) :
    transferJotformFilesToGoogleDrive f subId ud st =
      (ud.uploadedFiles,
        { st with processingSubmissions := setDelete st.processingSubmissions subId }) := by
  simp [transferJotformFilesToGoogleDrive, h]

theorem transfer_fresh_run (fetchedFiles : List String) (subId : String)
    (ud : UserData) (st : BotState)
    (h1 : subId ∉ st.processedSubmissions)
    (h2 : ud.uploadedFiles = [])
    (h3 : subId ∉ st.processingSubmissions) :
    transferJotformFilesToGoogleDrive fetchedFiles subId ud st =
      (fetchedFiles,
        if fetchedFiles ≠ [] then
          { st with processedSubmissions := setAdd st.processedSubmissions subId }
        else st) := by
  simp only [transferJotformFilesToGoogleDrive, h1, h2, h3]
  by_cases hf : fetchedFiles = [] <;>
    simp [hf, setDelete_setAdd_self h3, setDelete_setAdd_self h1, h1, h2, h3]

theorem transfer_fresh_success (fetchedFiles : List String) (subId : String)
    (ud : UserData) (st : BotState)
    (h1 : subId ∉ st.processedSubmissions)
    (h2 : ud.uploadedFiles = [])
    (h3 : subId ∉ st.processingSubmissions)
    (hf : fetchedFiles ≠ []) :
    transferJotformFilesToGoogleDrive fetchedFiles subId ud st =
      (fetchedFiles,
        { st with processedSubmissions := setAdd st.processedSubmissions subId }) := by
  rw [transfer_fresh_run fetchedFiles subId ud st h1 h2 h3, if_pos hf]

theorem transfer_fresh_empty (subId : String) (ud : UserData) (st : BotState)
    (h1 : subId ∉ st.processedSubmissions)
    (h2 : ud.uploadedFiles = [])
    (h3 : subId ∉ st.processingSubmissions) :
    transferJotformFilesToGoogleDrive [] subId ud st = ([], st) := by
  rw [transfer_fresh_run [] subId ud st h1 h2 h3]
  simp

theorem webhookHandler_matched_noop (f : List String) (ev : WebhookEvent)
    (st : BotState) (uid : String) (ud : UserData)
    (h1 : ev.submissionId ∉ st.processedSubmissions)
    (h2 : ev.submissionId ∉ st.processingSubmissions)
    (h3 : ev.sessionToken ≠ "")
    (h4 : ev.sessionToken ∉ st.processedTokens)
    (h5 : List.lookup ev.sessionToken st.tokenToUserId = some uid)
    (h6 : List.lookup uid st.submissions = some ud)
    (h7 : ud.sessionToken = ev.sessionToken)
    (h8 : ud.status = "awaiting_form_completion")
    (h9 : ud.uploadedFiles = []) :
    webhookHandler f ev st = ("Webhook processed", st) := by
  simp only [webhookHandler]
  rw [if_neg h1, if_neg h2, if_neg (fun hc => h4 hc.2)]
  simp only [h3, if_true, ite_true, ne_eq, not_false_eq_true, h5, h6, h7, h8]
  simp only [and_self, ite_true]
  rw [transfer_already_processed f ev.submissionId ud _ (mem_setAdd_self _ _)]
  simp only [h9, not_true_eq_false, ite_false, ne_eq, not_false_eq_true]
  simp only [setDelete_setAdd_self h1, setDelete_setAdd_self h2, setDelete_setAdd_self h4,
    setDelete_of_not_mem h2]

theorem webhookHandler_unmatched_effect (f : List String) (ev : WebhookEvent)
    (st : BotState)
    (h : ∀ uid ud, List.lookup ev.sessionToken st.tokenToUserId = some uid →
          List.lookup uid st.submissions = some ud →
          ¬(ud.sessionToken = ev.sessionToken ∧ ud.status = "awaiting_form_completion")) :
    (webhookHandler f ev st).2.backup = st.backup ∧
    (webhookHandler f ev st).2.channelMessages = st.channelMessages ∧
    (webhookHandler f ev st).2.submissions = st.submissions ∧
    (webhookHandler f ev st).2.tokenToUserId = st.tokenToUserId := by
  simp only [webhookHandler]
  split_ifs with e1 e2 e3 e4
  · exact ⟨rfl, rfl, rfl, rfl⟩
  · exact ⟨rfl, rfl, rfl, rfl⟩
  · exact ⟨rfl, rfl, rfl, rfl⟩
  · cases hl : List.lookup ev.sessionToken st.tokenToUserId with
    | none => simp [hl]
    | some uid =>
      cases hl2 : List.lookup uid st.submissions with
      | none => simp [hl, hl2]
      | some ud =>
        have hni := h uid ud hl hl2
        simp [hl, hl2, hni]
  · exact ⟨rfl, rfl, rfl, rfl⟩

theorem checkUploadStatus_zero_files (pollId : String) (userId : String)
    (st : BotState) (data : UserData)
    (hl : List.lookup userId st.submissions = some data)
    (hjf : data.jotform = true)
    (hkey : ("status_check_" ++ userId) ∉ st.processingConfirmations)
    (hupl : data.uploadedFiles = [])
    (hjsid : data.jotformSubmissionId = "")
    (hproc : pollId ∉ st.processedSubmissions)
    (hprocg : pollId ∉ st.processingSubmissions) :
    checkUploadStatus (some pollId) [] userId st = ("File Upload Failed", st) := by
  simp only [checkUploadStatus, hl]
  rw [if_neg (by simp [hjf])]
  rw [if_neg hkey]
  rw [if_neg (by simp [hjsid])]
  rw [if_neg (by simp [hupl])]
  rw [if_neg (by simp [hjsid])]
  rw [if_neg (by simp [hupl])]
  rw [if_neg (by simpa using hproc)]
  rw [transfer_fresh_empty pollId data _ (by simpa using hproc) hupl (by simpa using hprocg)]
  simp [setDelete_setAdd_self hkey]

theorem checkUploadStatus_success_run (pollId : String) (files : List String)
    (userId : String) (st : BotState) (data : UserData)
    (hl : List.lookup userId st.submissions = some data)
    (hjf : data.jotform = true)
    (hkey : ("status_check_" ++ userId) ∉ st.processingConfirmations)
    (hupl : data.uploadedFiles = [])
    (hjsid : data.jotformSubmissionId = "")
    (hproc : pollId ∉ st.processedSubmissions)
    (hprocg : pollId ∉ st.processingSubmissions)
    (hfiles : files ≠ [])
    (hnotif : (pollId ++ "_" ++ data.userId) ∉ st.notificationsSent) :
    checkUploadStatus (some pollId) files userId st =
      ("Complete",
        { st with
          submissions := mapDeleteU (mapSet st.submissions userId
            { data with uploadedFiles := files, jotformSubmissionId := pollId, status := "completed" }) userId,
          processedSubmissions := setAdd st.processedSubmissions pollId,
          notificationsSent := setAdd st.notificationsSent (pollId ++ "_" ++ data.userId),
          backup := st.backup ++ [mkSubmissionRecord
            { data with uploadedFiles := files, jotformSubmissionId := pollId } userId files],
          channelMessages := st.channelMessages ++ [pollId] }) := by
  simp only [checkUploadStatus, hl]
  rw [if_neg (by simp [hjf])]
  rw [if_neg hkey]
  rw [if_neg (by simp [hjsid])]
  rw [if_neg (by simp [hupl])]
  rw [if_neg (by simp [hjsid])]
  rw [if_neg (by simp [hupl])]
  rw [if_neg (by simpa using hproc)]
  rw [transfer_fresh_success files pollId data _ (by simpa using hproc) hupl
    (by simpa using hprocg) hfiles]
  rw [if_pos hfiles]
  simp only [sendSubmissionNotification]
  rw [if_neg (by simpa using hnotif)]
  simp [hfiles, setDelete_setAdd_self hkey, mapSet, mapDeleteU, mkSubmissionRecord]

theorem foldl_percentage_sum (l : List Agent) (s : ℚ) :
    l.foldl (fun acc a => acc + a.percentage) s = s + (l.map Agent.percentage).sum := by
  induction l generalizing s with
  | nil => simp
  | cons a t ih => simp [ih, add_assoc]

theorem stripCommas_idem (s : String) :
    stripCommas (stripCommas s) = stripCommas s := by
  simp [stripCommas, List.filter_filter]

end Helpers

/-- C1: a webhook for a matched draft transfers nothing at all.  The
handler marks the submission id processed and processing before calling
the transfer routine, whose own dedup check then short-circuits and
returns the draft's (empty) file list, so on the concrete state
`trackerStateA` a first webhook for s1/tok1 — with the Jotform fetch
ready to deliver doc.pdf — appends no Submission Record, sends no
notification, and hands back the state unchanged, and a second identical
webhook does exactly the same: zero records and zero notifications in
total, where the claim demands exactly one of each. -/
theorem webhook_double_fire_transfers_nothing :
    (webhookHandler ["doc.pdf"] eventS1 trackerStateA).1 = "Webhook processed" ∧
    (webhookHandler ["doc.pdf"] eventS1 trackerStateA).2 = trackerStateA ∧
    (webhookHandler ["doc.pdf"] eventS1
      (webhookHandler ["doc.pdf"] eventS1 trackerStateA).2).2.backup = [] ∧
    (webhookHandler ["doc.pdf"] eventS1
      (webhookHandler ["doc.pdf"] eventS1 trackerStateA).2).2.channelMessages = [] := by
  decide

/-- C3: a claimed processing attempt that transfers zero files changes
nothing durable.  On the webhook path (where the pre-marked dedup sets
force the transfer to yield zero files) the whole handler returns the
state unchanged: no record appended, status not advanced, the submission
id left in neither dedup set, the token map untouched.  On the manual
poll path, a claimed attempt whose fetch yields zero files likewise
returns the state unchanged with the upload-failed reply. -/
theorem zero_files_releases_claim :
    (∀ (f : List String) (ev : WebhookEvent) (st : BotState) (uid : String) (ud : UserData),
      ev.submissionId ∉ st.processedSubmissions →
      ev.submissionId ∉ st.processingSubmissions →
      ev.sessionToken ≠ "" →
      ev.sessionToken ∉ st.processedTokens →
      List.lookup ev.sessionToken st.tokenToUserId = some uid →
      List.lookup uid st.submissions = some ud →
      ud.sessionToken = ev.sessionToken →
      ud.status = "awaiting_form_completion" →
      ud.uploadedFiles = [] →
      webhookHandler f ev st = ("Webhook processed", st)) ∧
    (∀ (pollId userId : String) (st : BotState) (data : UserData),
      List.lookup userId st.submissions = some data →
      data.jotform = true →
      ("status_check_" ++ userId) ∉ st.processingConfirmations →
      data.uploadedFiles = [] →
      data.jotformSubmissionId = "" →
      pollId ∉ st.processedSubmissions →
      pollId ∉ st.processingSubmissions →
      checkUploadStatus (some pollId) [] userId st = ("File Upload Failed", st)) := by
  constructor
  · intro f ev st uid ud h1 h2 h3 h4 h5 h6 h7 h8 h9
    exact webhookHandler_matched_noop f ev st uid ud h1 h2 h3 h4 h5 h6 h7 h8 h9
  · intro pollId userId st data hl hjf hkey hupl hjsid hproc hprocg
    exact checkUploadStatus_zero_files pollId userId st data hl hjf hkey hupl hjsid hproc hprocg

/-- C3 witness: on the concrete state `trackerStateA`, a matched webhook
whose fetch finds no files is a complete no-op, and a manual poll whose
transfer yields no files replies with the upload failure and changes
nothing. -/
theorem zero_files_releases_claim_witness :
    webhookHandler [] eventS1 trackerStateA = ("Webhook processed", trackerStateA) ∧
    checkUploadStatus (some "s1") [] "u1" trackerStateA =
      ("File Upload Failed", trackerStateA) := by
  constructor
  · exact zero_files_releases_claim.1 [] eventS1 trackerStateA "u1" draftU1
      (by decide) (by decide) (by decide) (by decide) (by decide) (by decide)
      (by decide) (by decide) (by decide)
  · exact zero_files_releases_claim.2 "s1" "u1" trackerStateA draftU1
      (by decide) (by decide) (by decide) (by decide) (by decide) (by decide)
      (by decide)

/-- C4: an unmatched webhook (unknown token, here on an empty tracker
state) transfers no files, appends no record and sends no notification,
and leaves the processing set and processed-token set unchanged — but
the cleanup deletes the processing set twice instead of the processed
set, so the submission id s9 stays in processedSubmissions.  The last
two conjuncts show the damage: once the matching draft and token do
exist, a webhook for the same submission id is answered
"Already processed" and drops the event with no state change at all. -/
theorem unmatched_webhook_pollutes_processed_set :
    (webhookHandler [] eventUnknownToken emptyTracker).1 = "Webhook processed" ∧
    (webhookHandler [] eventUnknownToken emptyTracker).2.backup = [] ∧
    (webhookHandler [] eventUnknownToken emptyTracker).2.channelMessages = [] ∧
    (webhookHandler [] eventUnknownToken emptyTracker).2.processingSubmissions = [] ∧
    (webhookHandler [] eventUnknownToken emptyTracker).2.processedTokens = [] ∧
    (webhookHandler [] eventUnknownToken emptyTracker).2.processedSubmissions = ["s9"] ∧
    (webhookHandler [] { submissionId := "s8", sessionToken := "" }
      emptyTracker).2.processedSubmissions = ["s8"] ∧
    (webhookHandler ["doc.pdf"] { submissionId := "s9", sessionToken := "tok1" }
      { trackerStateA with processedSubmissions := ["s9"] }).1 = "Already processed" ∧
    (webhookHandler ["doc.pdf"] { submissionId := "s9", sessionToken := "tok1" }
      { trackerStateA with processedSubmissions := ["s9"] }).2 =
      { trackerStateA with processedSubmissions := ["s9"] } := by
  decide

/-- C2 counterexample: a successful manual poll on `trackerStateA` does
persist a Submission Record and send the notification — a genuine
success path — yet the token map still resolves tok1 to u1 afterwards:
the poll path never removes the session token from tokenToUserId,
refuting that the token is retired on every success path. -/
theorem poll_success_leaves_token_live :
    (checkUploadStatus (some "s1") ["doc.pdf"] "u1" trackerStateA).2.backup =
      [{ user_id := "u1", username := "U", uploadedFiles := ["doc.pdf"],
         jotformSubmissionId := "s1" }] ∧
    (checkUploadStatus (some "s1") ["doc.pdf"] "u1" trackerStateA).2.channelMessages =
      ["s1"] ∧
    List.lookup "tok1"
      (checkUploadStatus (some "s1") ["doc.pdf"] "u1" trackerStateA).2.tokenToUserId =
      some "u1" := by
  decide

/-- C2 amended: on the webhook push path's success branch the token is
deleted from the map, but that branch is unreachable (see C1); on the
manual poll path, successful processing leaves the token map completely
unchanged and instead deletes the draft from the session store, so a
later completion event bearing the same token still matches no draft:
any webhook carrying it leaves the backup list and the notification
channel untouched. -/
theorem poll_success_retires_draft_not_token (pollId : String) (files : List String)
    (userId : String) (st : BotState) (data : UserData)
    (hl : List.lookup userId st.submissions = some data)
    (hjf : data.jotform = true)
    (hkey : ("status_check_" ++ userId) ∉ st.processingConfirmations)
    (hupl : data.uploadedFiles = [])
    (hjsid : data.jotformSubmissionId = "")
    (hproc : pollId ∉ st.processedSubmissions)
    (hprocg : pollId ∉ st.processingSubmissions)
    (hfiles : files ≠ [])
    (hnotif : (pollId ++ "_" ++ data.userId) ∉ st.notificationsSent)
    (htokmap : List.lookup data.sessionToken st.tokenToUserId = some userId) :
    (checkUploadStatus (some pollId) files userId st).2.tokenToUserId =
      st.tokenToUserId ∧
    (checkUploadStatus (some pollId) files userId st).2.backup =
      st.backup ++ [mkSubmissionRecord
        { data with uploadedFiles := files, jotformSubmissionId := pollId } userId files] ∧
    (checkUploadStatus (some pollId) files userId st).2.channelMessages =
      st.channelMessages ++ [pollId] ∧
    List.lookup userId (checkUploadStatus (some pollId) files userId st).2.submissions =
      none ∧
    ∀ (f : List String) (ev : WebhookEvent), ev.sessionToken = data.sessionToken →
      (webhookHandler f ev (checkUploadStatus (some pollId) files userId st).2).2.backup =
        (checkUploadStatus (some pollId) files userId st).2.backup ∧
      (webhookHandler f ev (checkUploadStatus (some pollId) files userId st).2).2.channelMessages =
        (checkUploadStatus (some pollId) files userId st).2.channelMessages := by
  have hrun := checkUploadStatus_success_run pollId files userId st data
    hl hjf hkey hupl hjsid hproc hprocg hfiles hnotif
  refine ⟨by rw [hrun], by rw [hrun], by rw [hrun],
    by rw [hrun]; exact lookup_mapDeleteU_self _ _, ?_⟩
  intro f ev hev
  have H : ∀ uid ud,
      List.lookup ev.sessionToken
        (checkUploadStatus (some pollId) files userId st).2.tokenToUserId = some uid →
      List.lookup uid
        (checkUploadStatus (some pollId) files userId st).2.submissions = some ud →
      ¬(ud.sessionToken = ev.sessionToken ∧ ud.status = "awaiting_form_completion") := by
    intro uid ud hm hs
    rw [hrun] at hm hs
    have hm2 : List.lookup ev.sessionToken st.tokenToUserId = some uid := hm
    have hs2 : List.lookup uid (mapDeleteU (mapSet st.submissions userId
      { data with uploadedFiles := files, jotformSubmissionId := pollId, status := "completed" })
      userId) = some ud := hs
    rw [hev] at hm2
    have huid : uid = userId := by
      have h2 : some userId = some uid := htokmap ▸ hm2
      exact ((Option.some.injEq _ _).mp h2).symm
    rw [huid, lookup_mapDeleteU_self] at hs2
    exact absurd hs2 (by simp)
  have hum := webhookHandler_unmatched_effect f ev _ H
  exact ⟨hum.1, hum.2.1⟩

/-- C2 witness: the amended theorem applied to the concrete state
`trackerStateA` with poll result s1 and one fetched file. -/
theorem poll_success_retires_draft_not_token_witness :
    (checkUploadStatus (some "s1") ["doc.pdf"] "u1" trackerStateA).2.tokenToUserId =
      trackerStateA.tokenToUserId ∧
    List.lookup "u1"
      (checkUploadStatus (some "s1") ["doc.pdf"] "u1" trackerStateA).2.submissions =
      none := by
  have h := poll_success_retires_draft_not_token "s1" ["doc.pdf"] "u1" trackerStateA
    draftU1 (by decide) (by decide) (by decide) (by decide) (by decide) (by decide)
    (by decide) (by decide) (by decide) (by decide)
  exact ⟨h.1, h.2.2.2.1⟩


/-- C5 counterexample: when every write attempt hits an optimistic-
concurrency conflict, saveBackupToGitHub makes its 3 attempts with the
two 1-second backoffs and then the outer catch logs and swallows the
error: the function returns normally, so the exhausted failure is not
reported to the caller, refuting the claim's reporting requirement. -/
theorem saveBackup_exhaustion_swallowed :
    saveBackupToGitHub (fun _ => PutResult.conflict) =
      (SaveOutcome.swallowedLog, 3, 2) ∧
    SaveOutcome.swallowedLog ≠ SaveOutcome.raisedToCaller := by
  decide

/-- C5 amended: the writer is bounded to 3 attempts, re-fetches the
version token before each attempt (the attempt count is also the sha
fetch count), sleeps the fixed 1-second backoff between consecutive
attempts, succeeds as soon as a re-fetched write goes through — but
after exhausting the retries on conflicts the error is only logged and
swallowed, never raised to the caller; the in-memory draft state is
untouched (the embedding's state record is not an input of the writer at
all). -/
theorem saveBackup_retry_policy (oracle : ℕ → PutResult) :
    (saveBackupToGitHub oracle).2.1 ≤ 3 ∧
    (saveBackupToGitHub oracle).2.2 + 1 = (saveBackupToGitHub oracle).2.1 ∧
    (saveBackupToGitHub oracle).1 ≠ SaveOutcome.raisedToCaller ∧
    (oracle 0 = PutResult.conflict → oracle 1 = PutResult.conflict →
      oracle 2 = PutResult.conflict →
      saveBackupToGitHub oracle = (SaveOutcome.swallowedLog, 3, 2)) ∧
    (oracle 0 = PutResult.conflict → oracle 1 = PutResult.ok →
      saveBackupToGitHub oracle = (SaveOutcome.success, 2, 1)) := by
  cases h0 : oracle 0 <;> cases h1 : oracle 1 <;> cases h2 : oracle 2 <;>
    simp_all [saveBackupToGitHub, saveLoop]

/-- C5 witness: the amended theorem applied to the all-conflict oracle. -/
theorem saveBackup_retry_policy_witness :
    saveBackupToGitHub (fun _ => PutResult.conflict) =
      (SaveOutcome.swallowedLog, 3, 2) := by
  exact (saveBackup_retry_policy (fun _ => PutResult.conflict)).2.2.2.1 rfl rfl rfl


/-- C6: whenever the nett price (after comma stripping) and the rate
parse to numbers, calculateCommissions gives every participant the
payout (nettPrice * rate / 100) * share / 100, rounded to two decimals
and rendered as a fixed-point decimal string in its commission field,
leaving the rest of the participant untouched. -/
theorem calculateCommissions_payout_formula (nettPrice commissionRate : String)
    (agents : List Agent) (nett rate : ℚ)
    (hn : parseFloatQ (stripCommas nettPrice) = some nett)
    (hr : parseFloatQ commissionRate = some rate) :
    calculateCommissions nettPrice commissionRate agents =
      agents.map (fun a =>
        { a with commission := toFixed2 (some (nett * rate / 100 * a.percentage / 100)) }) := by
  simp [calculateCommissions, hn, hr, jsMul, jsMulQ, jsDiv100]

/-- C6 witness, Scenario A: nettPrice "1,200,000", rate "3", shares 60
and 40 give the payout strings 21600.00 and 14400.00. -/
theorem calculateCommissions_payout_formula_witness :
    parseFloatQ (stripCommas "1,200,000") = some 1200000 ∧
    parseFloatQ "3" = some 3 ∧
    calculateCommissions "1,200,000" "3" [agentA, agentB] =
      [{ agentA with commission := "21600.00" }, { agentB with commission := "14400.00" }] := by
  have h1 : parseFloatQ (stripCommas "1,200,000") = some 1200000 := by
    simp +decide [parseFloatQ, stripCommas, takeDigits, digitsToNat]
  have h2 : parseFloatQ "3" = some 3 := by
    simp +decide [parseFloatQ, takeDigits, digitsToNat]
  refine ⟨h1, h2, ?_⟩
  rw [calculateCommissions_payout_formula "1,200,000" "3" [agentA, agentB] 1200000 3 h1 h2]
  norm_num [agentA, agentB, toFixed2]
  constructor <;> decide

/-- C7 counterexample: a nett price that is still non-numeric after
comma stripping is NOT treated as the number 0: parseFloat yields NaN,
which propagates so every payout renders as the string NaN, and the
result differs from the one computed with nett price 0 (which would
give 0.00). -/
theorem calculateCommissions_nonnumeric_not_zero :
    (calculateCommissions "abc" "3" [agentA]).map Agent.commission = ["NaN"] ∧
    (calculateCommissions "0" "3" [agentA]).map Agent.commission = ["0.00"] ∧
    calculateCommissions "abc" "3" [agentA] ≠ calculateCommissions "0" "3" [agentA] := by
  have h1 : (calculateCommissions "abc" "3" [agentA]).map Agent.commission = ["NaN"] := by
    simp +decide [calculateCommissions, parseFloatQ, stripCommas, takeDigits,
      digitsToNat, jsMul, jsMulQ, jsDiv100, toFixed2, agentA]
  have h2 : (calculateCommissions "0" "3" [agentA]).map Agent.commission = ["0.00"] := by
    simp +decide [calculateCommissions, parseFloatQ, stripCommas, takeDigits,
      digitsToNat, jsMul, jsMulQ, jsDiv100, agentA]
    norm_num [toFixed2]
    decide
  refine ⟨h1, h2, fun h => ?_⟩
  have h3 := congrArg (List.map Agent.commission) h
  rw [h1, h2] at h3
  exact absurd h3 (by decide)

/-- C7 amended: thousands-separator commas are stripped before parsing
(running the calculator on the pre-stripped string changes nothing), and
an input still non-numeric after stripping parses to NaN, making every
participant payout the string NaN rather than a zero amount. -/
theorem calculateCommissions_comma_strip_nan (nettPrice commissionRate : String)
    (agents : List Agent) :
    calculateCommissions nettPrice commissionRate agents =
      calculateCommissions (stripCommas nettPrice) commissionRate agents ∧
    (parseFloatQ (stripCommas nettPrice) = none →
      ∀ a ∈ calculateCommissions nettPrice commissionRate agents,
        a.commission = "NaN") := by
  constructor
  · simp only [calculateCommissions, stripCommas_idem]
  · intro hn a ha
    simp only [calculateCommissions, hn, jsMul, jsDiv100, jsMulQ, List.mem_map] at ha
    obtain ⟨b, _, hb⟩ := ha
    rw [← hb]
    rfl

/-- C7 witness: the amended theorem at the non-numeric nett price abc. -/
theorem calculateCommissions_comma_strip_nan_witness :
    parseFloatQ (stripCommas "abc") = none ∧
    ∀ a ∈ calculateCommissions "abc" "3" [agentA], a.commission = "NaN" := by
  have h : parseFloatQ (stripCommas "abc") = none := by
    simp +decide [parseFloatQ, stripCommas, takeDigits]
  exact ⟨h, (calculateCommissions_comma_strip_nan "abc" "3" [agentA]).2 h⟩

/-- C8 counterexample: validateAgentPercentages itself performs no name
filtering: on a list whose empty-name slot carries share 100 next to a
named participant with share 100, the named shares sum to exactly 100 —
the claim demands true — but the validator sums both slots to 200 and
returns false. -/
theorem validateAgentPercentages_counts_unnamed :
    validateAgentPercentages
      [{ name := "", code := "", percentage := 100, commission := "" },
       { name := "A", code := "", percentage := 100, commission := "" }] = false ∧
    (([{ name := "", code := "", percentage := 100, commission := "" },
       { name := "A", code := "", percentage := 100, commission := "" }].filter
        (fun a => a.name != "")).map Agent.percentage).sum = 100 := by
  constructor
  · simp +decide [validateAgentPercentages]
    norm_num
  · simp

/-- C8 amended: the empty-name exclusion lives at the call sites, which
filter unnamed slots out before invoking the validator; for the filtered
list the validator returns true exactly when the named shares differ
from 100 by strictly less than 0.01 (in exact arithmetic — sums at exact
distance 0.01 such as 99.99 sit on the strict boundary and pass in the
source only through binary floating-point drift, so the concrete
instances here stay off that boundary). -/
theorem validateAgentPercentages_filtered :
    (∀ l : List Agent,
      validateAgentPercentages (l.filter (fun a => a.name != "")) = true ↔
        |((l.filter (fun a => a.name != "")).map Agent.percentage).sum - 100| < 1/100) ∧
    validateAgentPercentages [agentA, agentB] = true ∧
    validateAgentPercentages [agentA, { agentB with percentage := 39.995 }] = true ∧
    validateAgentPercentages [agentA, { agentB with percentage := 40.005 }] = true ∧
    validateAgentPercentages [agentA, { agentB with percentage := 39.98 }] = false ∧
    validateAgentPercentages [agentA, { agentB with percentage := 40.02 }] = false := by
  refine ⟨?_, ?_, ?_, ?_, ?_, ?_⟩
  · intro l
    rw [validateAgentPercentages]
    rw [foldl_percentage_sum]
    simp [decide_eq_true_iff]
  · simp +decide [validateAgentPercentages, agentA, agentB]
    norm_num
  · simp +decide [validateAgentPercentages, agentA, agentB]
    rw [abs_lt]
    constructor <;> norm_num
  · simp +decide [validateAgentPercentages, agentA, agentB]
    rw [abs_lt]
    constructor <;> norm_num
  · simp +decide [validateAgentPercentages, agentA, agentB]
    rw [le_abs]
    right
    norm_num
  · simp +decide [validateAgentPercentages, agentA, agentB]
    rw [le_abs]
    left
    norm_num

/-- C9 counterexample: with an entry mapping project x to the stored
percentage 0, the lookup returns the default 50 even though the entry is
present, because the JavaScript || treats the stored 0 as falsy —
refuting "returns the stored percentage when an entry exists" and
"returns 50 exactly when no entry is present". -/
theorem fastCommission_zero_entry_defaults :
    List.lookup (toLowerCase "x") [("x", (0:ℚ))] = some 0 ∧
    getFastCommissionPercentage [("x", (0:ℚ))] "x" = 50 ∧
    (50:ℚ) ≠ 0 := by
  refine ⟨by decide, by decide, by norm_num⟩

/-- C9 amended: the lookup is case-insensitive (queries agreeing after
lower-casing get equal answers), returns the stored percentage when the
entry exists and is nonzero, and returns the default 50 both when no
entry is present and when the stored value is the falsy 0. -/
theorem fastCommission_lookup_amended (m : List (String × ℚ)) (p q : String) (v : ℚ) :
    (toLowerCase p = toLowerCase q →
      getFastCommissionPercentage m p = getFastCommissionPercentage m q) ∧
    (List.lookup (toLowerCase p) m = some v → v ≠ 0 →
      getFastCommissionPercentage m p = v) ∧
    (List.lookup (toLowerCase p) m = none →
      getFastCommissionPercentage m p = 50) ∧
    (List.lookup (toLowerCase p) m = some 0 →
      getFastCommissionPercentage m p = 50) := by
  refine ⟨?_, ?_, ?_, ?_⟩
  · intro h
    simp [getFastCommissionPercentage, h]
  · intro h hv
    simp [getFastCommissionPercentage, h, hv]
  · intro h
    simp [getFastCommissionPercentage, h]
  · intro h
    simp [getFastCommissionPercentage, h]

/-- C9 witness: the amended theorem on the single-entry map abc to 30:
the query ABC matches case-insensitively and returns 30, and an absent
project returns 50. -/
theorem fastCommission_lookup_amended_witness :
    getFastCommissionPercentage [("abc", (30:ℚ))] "ABC" =
      getFastCommissionPercentage [("abc", (30:ℚ))] "abc" ∧
    getFastCommissionPercentage [("abc", (30:ℚ))] "ABC" = 30 ∧
    getFastCommissionPercentage [("abc", (30:ℚ))] "zzz" = 50 := by
  have h := fastCommission_lookup_amended [("abc", (30:ℚ))] "ABC" "abc" 30
  have h2 := fastCommission_lookup_amended [("abc", (30:ℚ))] "zzz" "zzz" 30
  exact ⟨h.1 (by decide), h.2.1 (by decide) (by norm_num), h2.2.2.1 (by decide)⟩

/-- C10: calculateCommissions returns a list of the same length and
order in which every participant keeps its name, code and percentage
unchanged; only the commission field is (re)written. -/
theorem calculateCommissions_preserves_fields (nettPrice commissionRate : String)
    (agents : List Agent) :
    (calculateCommissions nettPrice commissionRate agents).length = agents.length ∧
    (calculateCommissions nettPrice commissionRate agents).map
        (fun a => (a.name, a.code, a.percentage)) =
      agents.map (fun a => (a.name, a.code, a.percentage)) := by
  constructor
  · simp [calculateCommissions]
  · simp [calculateCommissions, List.map_map]

end CommClaimBot
